import Mathlib

/-!
# Shallow embedding of the WeatherApp client (TypeScript) in Lean 4

Source files embedded:
* `src/storage.ts` (repository file `src/unnamed/part_001`): the local-cache
  module (`saveLastCity`, `getLastCity`, `clearLastCity`, `isStorageAvailable`).
* `src/weather-api.ts`: the weather-code table (`weatherCodeMap`,
  `getWeatherInfo`), the geocoding client (`searchCities`) and the weather
  client (`getCurrentWeather`, `getBerlinCoordinates`).
* `src/search.ts` (concatenated after `weather-api.ts` in the repository
  snapshot): the autocomplete keyboard-navigation index transitions of
  `initSearch` and the dropdown item text of `showResults`.
* `src/index.ts`: the display controller (`updateWeatherDisplay`,
  `fetchWeatherData`, `generateSearchText`, `loadInitialWeather`).

Modelling conventions:
* JavaScript numbers are modelled as `Rat` (timestamps, coordinates, raw
  weather fields) or `Int` (rounded temperatures, weather codes).  A stored
  JSON field that may be missing, or whose arithmetic use would produce `NaN`,
  is an `Option Rat` with `none` for the missing/`NaN`-producing case; the
  JavaScript comparison `NaN > x` is `false`, which the embedding reproduces
  by matching on `none`.
* `localStorage` is a single slot `Option StoredValue`; `StoredValue.malformed`
  stands for stored text that `JSON.parse` rejects (the `catch` path of
  `getLastCity`).  Functions that mutate the slot take it and return the new
  slot explicitly.
* Network effects are oracles passed in explicitly: geocoding gets a `GeoNet`
  value (network rejection, HTTP error status, or a decoded body), the weather
  endpoint a function `Coordinates → Option RawCurrent` with `none` for any
  network/HTTP/decode failure (all of which `getCurrentWeather` turns into a
  thrown localized error, modelled as `none`).
* The DOM is a record `DisplayState` of the text/visibility values the code
  writes.  Purely transient effects (the `fade-in` animation class, the
  auto-removed `aria-live` announcement node, the `#loading-indicator`
  element that is hidden again in the `finally` block) are not part of the
  state.  The displayed humidity and wind-speed values are kept as numbers
  (the code writes `` `${humidity}%` `` and `` `${windSpeed} km/h` ``); all
  string-formatting that a claim mentions is embedded as actual strings.
* In TypeScript, `fetchWeatherData` wraps its whole body in
  `try … catch … finally` and rethrows nothing, so the promise it returns
  always resolves; the embedding is accordingly a total function.  Likewise
  `getLastCity`, `saveLastCity` and `searchCities` catch internally and are
  total.
-/

/-- Truthiness of an optional JS string: `undefined` and `""` are falsy. -/
def strTruthy : Option String → Bool
  | none => false
  | some s => s ≠ ""

/-- Truthiness of an optional JS number: `undefined`, `NaN` and `0` are falsy
(`none` models `undefined`/`NaN`). -/
def numTruthy : Option Rat → Bool
  | none => false
  | some x => x ≠ 0

/-- JS `a || b` for optional strings (used for `result.country || result.admin1`). -/
def jsOrStr (a b : Option String) : Option String :=
  if strTruthy a then a else b

/-- JS `Math.round`: round half toward positive infinity. -/
def jsRound (x : Rat) : Int := ⌊x + 1/2⌋

/-- Character-list version of "starts with". -/
def leadMatch : List Char → List Char → Bool
  | [], _ => true
  | _ :: _, [] => false
  | a :: as, b :: bs => a = b && leadMatch as bs

/-- Character-list version of "contains as contiguous sublist". -/
def hasSub (sub : List Char) : List Char → Bool
  | [] => leadMatch sub []
  | b :: bs => leadMatch sub (b :: bs) || hasSub sub bs

/-- `strContains s sub` : the string `s` contains `sub` as a substring. -/
def strContains (s sub : String) : Bool := hasSub sub.data s.data

/-- `Coordinates` from `weather-api.ts`: `{lat, lon, name, country?, postcodes?}`. -/
structure Coordinates where
  lat : Rat
  lon : Rat
  name : String
  country : Option String
  postcodes : Option (List String)
deriving DecidableEq, Repr

/-- `StoredCity` from `storage.ts` as it comes back out of `JSON.parse`:
every field the validation logic inspects may be missing or non-numeric,
so `lat`, `lon` and `timestamp` are optional numbers (`none` = the
`undefined`/`NaN` case) and `name` defaults to `""` when absent. -/
structure StoredRecord where
  lat : Option Rat
  lon : Option Rat
  name : String
  country : Option String
  postcodes : Option (List String)
  timestamp : Option Rat
  searchText : String
deriving DecidableEq, Repr

/-- The contents of the `weather-app-last-city` storage slot: either text that
`JSON.parse` rejects, or a parsed record. -/
inductive StoredValue
  | malformed
  | record (r : StoredRecord)
deriving DecidableEq, Repr

/-- `saveLastCity` (storage.ts, lines 19–32): spreads the coordinates, adds the
current timestamp and the search text, and overwrites the storage slot.
The surrounding `try`/`catch` only logs, so the function is total; a storage
backend failure is modelled at the caller (`isStorageAvailable`). -/
def saveLastCity (coordinates : Coordinates) (searchText : String) (now : Rat)
    (_store : Option StoredValue) : Option StoredValue :=
  some (.record
    { lat := some coordinates.lat
      lon := some coordinates.lon
      name := coordinates.name
      country := coordinates.country
      postcodes := coordinates.postcodes
      timestamp := some now
      searchText := searchText })

/-- `getLastCity` (storage.ts, lines 39–70): read the slot, parse, expire by
age, validate truthiness of `lat`/`lon`/`name`; every failing path calls
`clearLastCity` and returns `null`.  Returns the parsed record (if any)
together with the storage slot after the call.  The expiry test
`(Date.now() - cityData.timestamp) / (1000*60*60) > maxAgeHours` is `false`
when `timestamp` is missing or non-numeric (`NaN` comparison), which the
`none` branch reproduces. -/
def getLastCity (store : Option StoredValue) (now : Rat) (maxAgeHours : Rat := 24) :
    Option StoredRecord × Option StoredValue :=
  match store with
  | none => (none, none)
  | some .malformed => (none, none)
  | some (.record cityData) =>
    let expired : Bool :=
      match cityData.timestamp with
      | some t => decide ((now - t) / (1000 * 60 * 60) > maxAgeHours)
      | none => false
    if expired then (none, none)
    else if ¬ numTruthy cityData.lat ∨ ¬ numTruthy cityData.lon ∨ cityData.name = "" then
      (none, none)
    else (some cityData, some (.record cityData))

/-- `clearLastCity` (storage.ts, lines 75–82): empty the slot. -/
def clearLastCity (_store : Option StoredValue) : Option StoredValue := none

/-- One entry of the static `weatherCodeMap` table (weather-api.ts). -/
structure WeatherInfo where
  condition : String
  image : String
  background : String
deriving DecidableEq, Repr

/-- `weatherCodeMap` (weather-api.ts, lines 29–58): the static code table,
as an association list keyed by weather code. -/
def weatherCodeMap : List (Int × WeatherInfo) :=
  [ (0, ⟨"Klarer Himmel", "sunny.png", "sunny"⟩),
    (1, ⟨"Überwiegend klar", "sunny.png", "sunny"⟩),
    (2, ⟨"Teilweise bewölkt", "cloudy_sunny.png", "sunny"⟩),
    (3, ⟨"Bedeckt", "cloudy.png", "cloudy"⟩),
    (45, ⟨"Neblig", "cloudy.png", "cloudy"⟩),
    (48, ⟨"Eisnebel", "cloudy.png", "cloudy"⟩),
    (51, ⟨"Nieselregen", "sunny_rain.png", "cloudy"⟩),
    (53, ⟨"Nieselregen", "sunny_rain.png", "cloudy"⟩),
    (55, ⟨"Starker Niesel", "sunny_rain.png", "cloudy"⟩),
    (56, ⟨"Eisregen", "sunny_rain.png", "cloudy"⟩),
    (57, ⟨"Starker Eisregen", "sunny_rain.png", "cloudy"⟩),
    (61, ⟨"Leichter Regen", "sunny_rain.png", "cloudy"⟩),
    (63, ⟨"Mäßiger Regen", "sunny_rain.png", "cloudy"⟩),
    (65, ⟨"Starker Regen", "sunny_rain.png", "cloudy"⟩),
    (66, ⟨"Eisregen", "sunny_rain.png", "cloudy"⟩),
    (67, ⟨"Starker Eisregen", "sunny_rain.png", "cloudy"⟩),
    (71, ⟨"Leichter Schnee", "cloudy.png", "cloudy"⟩),
    (73, ⟨"Mäßiger Schnee", "cloudy.png", "cloudy"⟩),
    (75, ⟨"Starker Schnee", "cloudy.png", "cloudy"⟩),
    (77, ⟨"Schneekörner", "cloudy.png", "cloudy"⟩),
    (80, ⟨"Regenschauer", "sunny_rain.png", "cloudy"⟩),
    (81, ⟨"Regenschauer", "sunny_rain.png", "cloudy"⟩),
    (82, ⟨"Starke Schauer", "sunny_rain.png", "cloudy"⟩),
    (85, ⟨"Schneeschauer", "cloudy.png", "cloudy"⟩),
    (86, ⟨"Starke Schneeschauer", "cloudy.png", "cloudy"⟩),
    (95, ⟨"Gewitter", "sunny_rain.png", "cloudy"⟩),
    (96, ⟨"Gewitter & Hagel", "sunny_rain.png", "cloudy"⟩),
    (99, ⟨"Schweres Gewitter", "sunny_rain.png", "cloudy"⟩) ]

/-- `getWeatherInfo` (weather-api.ts, lines 63–66):
`weatherCodeMap[weatherCode] || defaultWeather` (table entries are objects,
hence truthy, so `||` falls back exactly on absent keys). -/
def getWeatherInfo (weatherCode : Int) : WeatherInfo :=
  (weatherCodeMap.lookup weatherCode).getD ⟨"Klarer Himmel", "sunny.png", "sunny"⟩

/-- One item of the geocoding response's `results` array, with the fields
`searchCities` reads; `country`, `admin1` and `postcodes` may be absent. -/
structure GeoRaw where
  latitude : Rat
  longitude : Rat
  name : String
  country : Option String
  admin1 : Option String
  postcodes : Option (List String)
deriving DecidableEq, Repr

/-- Outcome of the geocoding fetch as seen by `searchCities`: the fetch
rejects or the body fails to decode (`netFail`), the response has a non-ok
status (`httpError`, which makes `searchCities` throw into its own `catch`),
or a decoded body whose `results` array may be absent. -/
inductive GeoNet
  | netFail
  | httpError
  | ok (results : Option (List GeoRaw))
deriving DecidableEq, Repr

/-- `searchCities` (weather-api.ts, lines 73–103): empty/whitespace query
short-circuits to `[]`; every failure path lands in the `catch` and returns
`[]`; an absent `results` array is zero matches; otherwise each raw result is
mapped to `Coordinates` with `country: result.country || result.admin1` and
`postcodes: result.postcodes || []`.  The TS function catches internally and
never rejects, so the embedding is total. -/
def searchCities (query : String) (net : GeoNet) : List Coordinates :=
  if query.trim = "" then []
  else
    match net with
    | .netFail => []
    | .httpError => []
    | .ok none => []
    | .ok (some results) =>
      results.map fun result =>
        { lat := result.latitude
          lon := result.longitude
          name := result.name
          country := jsOrStr result.country result.admin1
          postcodes := some (result.postcodes.getD []) }

/-- The `current` sub-object of the weather response, with the fields
`getCurrentWeather` reads. -/
structure RawCurrent where
  temperature_2m : Rat
  relative_humidity_2m : Rat
  apparent_temperature : Rat
  weather_code : Int
  wind_speed_10m : Rat
deriving DecidableEq, Repr

/-- `WeatherData` (weather-api.ts, lines 6–16) as `getCurrentWeather`
constructs it (`postcodes` is always supplied via `|| []`). -/
structure WeatherData where
  temperature : Int
  feelsLike : Int
  humidity : Rat
  windSpeed : Rat
  weatherCode : Int
  weatherDescription : String
  cityName : String
  country : Option String
  postcodes : List String
deriving DecidableEq, Repr

/-- `getCurrentWeather` (weather-api.ts, lines 110–142): one fetch at the
candidate's coordinates; temperature and feels-like go through `Math.round`,
wind speed through `Math.round(x*10)/10`; `country: country || undefined`
turns a falsy country into `undefined`.  Any network/HTTP/decode failure is
rethrown as a localized error, modelled as `none`. -/
def getCurrentWeather (coordinates : Coordinates)
    (wnet : Coordinates → Option RawCurrent) : Option WeatherData :=
  (wnet coordinates).map fun current =>
    { temperature := jsRound current.temperature_2m
      feelsLike := jsRound current.apparent_temperature
      humidity := current.relative_humidity_2m
      windSpeed := (jsRound (current.wind_speed_10m * 10) : Rat) / 10
      weatherCode := current.weather_code
      weatherDescription := (getWeatherInfo current.weather_code).condition
      cityName := coordinates.name
      country := if strTruthy coordinates.country then coordinates.country else none
      postcodes := coordinates.postcodes.getD [] }

/-- `getBerlinCoordinates` (weather-api.ts, lines 147–155). -/
def getBerlinCoordinates : Coordinates :=
  { lat := 52.52
    lon := 13.405
    name := "Berlin"
    country := some "Deutschland"
    postcodes := some ["10115", "10117", "10119"] }

/-- The keys the `keydown` handler of `initSearch` (search.ts) dispatches on. -/
inductive NavKey
  | arrowDown
  | arrowUp
  | enter
  | escape
deriving DecidableEq, Repr

/-- One step of the selection index in the `keydown` handler of `initSearch`
(search.ts): `ArrowDown` does `Math.min(selectedIndex + 1, items.length - 1)`,
`ArrowUp` does `Math.max(selectedIndex - 1, -1)`, `Enter` leaves the index
unchanged, `Escape` resets it to `-1`.  `items` is the rendered option list,
of length `count`. -/
def selectionStep (count : Nat) (selectedIndex : Int) : NavKey → Int
  | .arrowDown => min (selectedIndex + 1) ((count : Int) - 1)
  | .arrowUp => max (selectedIndex - 1) (-1)
  | .enter => selectedIndex
  | .escape => -1

/-- The selection index after a sequence of key events, starting from the
initial `-1` of `initSearch`. -/
def selectionRun (count : Nat) (keys : List NavKey) : Int :=
  keys.foldl (selectionStep count) (-1)

/-- The text of one dropdown item built by `showResults` (search.ts):
`name`, optional `, country`, and when postcodes exist
`(PLZ: first, +N more)` with `N = postcodes.length - 1`. -/
def resultItemText (city : Coordinates) : String :=
  let cityText := city.name
  let cityText :=
    if strTruthy city.country then cityText ++ ", " ++ city.country.getD "" else cityText
  match city.postcodes with
  | some (p :: rest) =>
    let cityText := cityText ++ " (PLZ: " ++ p
    let cityText :=
      if rest.length + 1 > 1 then cityText ++ ", +" ++ toString rest.length ++ " more"
      else cityText
    cityText ++ ")"
  | _ => cityText

/-- The DOM values the display controller (index.ts) writes.  Text contents
that claims inspect are strings; the humidity and wind-speed slots hold the
numeric value the code interpolates into `` `${…}%` `` / `` `${…} km/h` ``.
`postalVisible` is `style.display` of `#postal-codes` (`block`/`none`);
`loadingHidden`/`dataHidden` are the `hidden` flags of the two sections;
`themeClass` is the weather class `updateBackgroundTheme` puts on `body`. -/
structure DisplayState where
  temperatureText : String
  feelsLikeText : String
  weatherTypeText : String
  cityText : String
  humidityShown : Rat
  windShown : Rat
  postalText : String
  postalVisible : Bool
  imageSrc : String
  imageAlt : String
  themeClass : String
  loadingHidden : Bool
  dataHidden : Bool
  searchPlaceholder : String
  buttonDisabled : Bool
  buttonLabel : String
deriving DecidableEq, Repr

/-- `showLoadingState` (index.ts, lines 57–64). -/
def showLoadingState (d : DisplayState) : DisplayState :=
  { d with loadingHidden := false, dataHidden := true }

/-- `showWeatherData` (index.ts, lines 69–82); the transient `fade-in` class
is not part of the state. -/
def showWeatherData (d : DisplayState) : DisplayState :=
  { d with loadingHidden := true, dataHidden := false }

/-- The postal-code text `updateWeatherDisplay` builds for a non-empty list
`p :: rest`: `PLZ: p`, then `, ` + `slice(1,3).join(', ')` when more than one
code, then `, +N more` with `N = length - 3` when more than three. -/
def postalTextOf (p : String) (rest : List String) : String :=
  let postalText := "PLZ: " ++ p
  let postalText :=
    if rest.length + 1 > 1 then
      postalText ++ ", " ++ String.intercalate ", " (rest.take 2)
    else postalText
  if rest.length + 1 > 3 then
    postalText ++ ", +" ++ toString (rest.length + 1 - 3) ++ " more"
  else postalText

/-- `updateWeatherDisplay` (index.ts, lines 88–152): writes every weather
field, shows/hides the postal-code element, sets the icon, calls
`showWeatherData`, and (after a delay) applies the background theme. -/
def updateWeatherDisplay (weatherData : WeatherData) (d : DisplayState) : DisplayState :=
  let weatherInfo := getWeatherInfo weatherData.weatherCode
  let d :=
    { d with
      temperatureText := toString weatherData.temperature ++ "°C"
      feelsLikeText := toString weatherData.feelsLike ++ "°C"
      weatherTypeText := weatherData.weatherDescription
      cityText :=
        if strTruthy weatherData.country then
          weatherData.cityName ++ ", " ++ weatherData.country.getD ""
        else weatherData.cityName
      humidityShown := weatherData.humidity
      windShown := weatherData.windSpeed
      imageSrc := "./assets/images/" ++ weatherInfo.image
      imageAlt := weatherData.weatherDescription ++ " weather conditions in "
        ++ weatherData.cityName
      themeClass := weatherInfo.background }
  let d :=
    match weatherData.postcodes with
    | [] => { d with postalVisible := false }
    | p :: rest => { d with postalText := postalTextOf p rest, postalVisible := true }
  showWeatherData d

/-- `generateSearchText` (index.ts, lines 237–246). -/
def generateSearchText (coordinates : Coordinates) : String :=
  let searchText := coordinates.name
  let searchText :=
    if strTruthy coordinates.country then
      searchText ++ ", " ++ coordinates.country.getD ""
    else searchText
  match coordinates.postcodes with
  | some (p :: _) => searchText ++ " (PLZ: " ++ p ++ ")"
  | _ => searchText

/-- The effectful environment of the display controller: the weather-endpoint
oracle and whether `localStorage` probes as available. -/
structure Env where
  wnet : Coordinates → Option RawCurrent
  storageOk : Bool

/-- The mutable state `fetchWeatherData`/`loadInitialWeather` touch: the DOM
values, the storage slot, the clock, and (for the proofs) the list of
coordinates for which a weather fetch was issued. -/
structure AppState where
  display : DisplayState
  store : Option StoredValue
  now : Rat
  fetchLog : List Coordinates
  currentCoordinates : Option Coordinates
deriving Repr

/-- `fetchWeatherData` (index.ts, lines 179–230): optionally show the loading
state, disable the button, fetch; on success render via `updateWeatherDisplay`
and (when requested and storage is available) save to the cache, storage
errors being swallowed; on failure call `showWeatherData` and write the static
error strings into the city and condition fields; the `finally` block restores
the button.  The `catch` swallows every error, so the TS promise always
resolves and the embedding is total.  Every call appends the fetched
coordinates to `fetchLog`. -/
def fetchWeatherData (coordinates : Coordinates) (saveToStorage : Bool := true)
    (showLoading : Bool := true) (env : Env) (st : AppState) : AppState :=
  let d := if showLoading then showLoadingState st.display else st.display
  let d := { d with buttonDisabled := true, buttonLabel := "Lädt..." }
  let log := st.fetchLog ++ [coordinates]
  match getCurrentWeather coordinates env.wnet with
  | some weatherData =>
    let d := updateWeatherDisplay weatherData d
    let store' :=
      if saveToStorage && env.storageOk then
        saveLastCity coordinates (generateSearchText coordinates) st.now st.store
      else st.store
    { st with
      display := { d with buttonDisabled := false, buttonLabel := "Wetter abrufen" }
      store := store'
      fetchLog := log }
  | none =>
    let d := showWeatherData d
    let d :=
      { d with
        cityText := "Fehler beim Laden der Wetterdaten"
        weatherTypeText := "Bitte versuchen Sie es erneut" }
    { st with
      display := { d with buttonDisabled := false, buttonLabel := "Wetter abrufen" }
      fetchLog := log }

/-- A validated `StoredCity` used as the `Coordinates` it extends (index.ts
passes `lastCity` straight to `fetchWeatherData`); `getLastCity` only returns
records whose `lat`/`lon` are present, so the defaults are never exercised. -/
def storedToCoordinates (r : StoredRecord) : Coordinates :=
  { lat := r.lat.getD 0
    lon := r.lon.getD 0
    name := r.name
    country := r.country
    postcodes := r.postcodes }

/-- `loadInitialWeather` (index.ts, lines 274–341): load the saved city if
`getLastCity` returns one, otherwise hide the loading section and load the
Berlin default; both fetches are issued with `saveToStorage = false` and
`showLoading = false`, and the search placeholder and the current coordinates
are set afterwards.  The `catch` branch of the TS function (fall back to
Berlin) is unreachable for weather failures, because `fetchWeatherData`
catches its own errors and its promise always resolves; the embedding is
therefore the `try` block alone. -/
def loadInitialWeather (env : Env) (st : AppState) : AppState :=
  let (lastCity?, store') := getLastCity st.store st.now 24
  let st := { st with store := store' }
  match lastCity? with
  | some lastCity =>
    let coords := storedToCoordinates lastCity
    let st' := fetchWeatherData coords false false env st
    { st' with
      display := { st'.display with searchPlaceholder := "Aktuell: " ++ lastCity.searchText }
      currentCoordinates := some coords }
  | none =>
    let st := { st with display := { st.display with loadingHidden := true } }
    let st' := fetchWeatherData getBerlinCoordinates false false env st
    { st' with
      display :=
        { st'.display with
          searchPlaceholder := "Aktuell: " ++ generateSearchText getBerlinCoordinates }
      currentCoordinates := some getBerlinCoordinates }

/-- The city `loadInitialWeather` resolves and fetches first: the cached city
when `getLastCity` yields one, else the Berlin default. -/
def initialResolvedCity (st : AppState) : Coordinates :=
  match (getLastCity st.store st.now 24).1 with
  | some lastCity => storedToCoordinates lastCity
  | none => getBerlinCoordinates

/-- The display values of the freshly loaded page, before any render. -/
def bootDisplay : DisplayState :=
  { temperatureText := ""
    feelsLikeText := ""
    weatherTypeText := ""
    cityText := ""
    humidityShown := 0
    windShown := 0
    postalText := ""
    postalVisible := false
    imageSrc := ""
    imageAlt := ""
    themeClass := ""
    loadingHidden := true
    dataHidden := false
    searchPlaceholder := ""
    buttonDisabled := false
    buttonLabel := "Wetter abrufen" }

/-- A valid cached record for a non-default city, saved at epoch-ms 1000. -/
def hamburgRecord : StoredRecord :=
  { lat := some 53
    lon := some 10
    name := "Hamburg"
    country := some "Deutschland"
    postcodes := some ["20095"]
    timestamp := some 1000
    searchText := "Hamburg, Deutschland (PLZ: 20095)" }

/-- An environment in which every weather fetch fails. -/
def failingEnv : Env := { wnet := fun _ => none, storageOk := true }

/-- A page-load state at epoch-ms 1000 whose cache holds `hamburgRecord`. -/
def bootState : AppState :=
  { display := bootDisplay
    store := some (.record hamburgRecord)
    now := 1000
    fetchLog := []
    currentCoordinates := none }

/-- A weather snapshot with the given postal-code list (other fields fixed). -/
def sampleWeather (postcodes : List String) : WeatherData :=
  { temperature := 21
    feelsLike := 20
    humidity := 60
    windSpeed := 10
    weatherCode := 0
    weatherDescription := "Klarer Himmel"
    cityName := "Berlin"
    country := some "Deutschland"
    postcodes := postcodes }

/-- `hamburgRecord` with its save time moved two days before the clock used in
the expiry witness. -/
def expiredRecord : StoredRecord := { hamburgRecord with timestamp := some 0 }

/-- A valid city candidate (nonzero coordinates, non-empty name). -/
def hamburgCity : Coordinates :=
  { lat := 53, lon := 10, name := "Hamburg", country := some "Deutschland",
    postcodes := some ["20095"] }

/-- A candidate lying on the equator (`lat = 0`). -/
def equatorCity : Coordinates :=
  { lat := 0, lon := 7, name := "Nullinsel", country := none, postcodes := none }

/-- A stored record whose `timestamp` field is missing or non-numeric. -/
def noTimestampRecord : StoredRecord :=
  { lat := some 53, lon := some 10, name := "Hamburg", country := none,
    postcodes := none, timestamp := none, searchText := "Hamburg" }

/-- Helper: one key event keeps the selection index inside `[-1, count-1]`. -/
theorem selectionStep_bounds (count : Nat) (i : Int) (k : NavKey)
    (h1 : -1 ≤ i) (h2 : i ≤ (count : Int) - 1) :
    -1 ≤ selectionStep count i k ∧ selectionStep count i k ≤ (count : Int) - 1 := by
  cases k <;> simp only [selectionStep] <;> omega

/-- Helper: folding key events over any in-bounds start stays in bounds. -/
theorem selectionFoldl_bounds (count : Nat) (keys : List NavKey) :
    ∀ i : Int, -1 ≤ i → i ≤ (count : Int) - 1 →
      -1 ≤ keys.foldl (selectionStep count) i ∧
        keys.foldl (selectionStep count) i ≤ (count : Int) - 1 := by
  induction keys with
  | nil => intro i h1 h2; simpa using ⟨h1, h2⟩
  | cons k ks ih =>
    intro i h1 h2
    obtain ⟨a, b⟩ := selectionStep_bounds count i k h1 h2
    simpa [List.foldl] using ih _ a b

/-- Helper: the complete effect of `fetchWeatherData` when the weather fetch
for the requested coordinates fails: the error strings land in the city and
condition slots, the weather section is shown, the button is restored, the
fetch is logged, and nothing else changes. -/
theorem fetchWeatherData_failure_aux (coordinates : Coordinates)
    (saveToStorage showLoading : Bool) (env : Env) (st : AppState)
    (h : env.wnet coordinates = none) :
    fetchWeatherData coordinates saveToStorage showLoading env st =
      { st with
        display :=
          { (if showLoading then showLoadingState st.display else st.display) with
            cityText := "Fehler beim Laden der Wetterdaten"
            weatherTypeText := "Bitte versuchen Sie es erneut"
            loadingHidden := true
            dataHidden := false
            buttonDisabled := false
            buttonLabel := "Wetter abrufen" }
        fetchLog := st.fetchLog ++ [coordinates] } := by
  cases showLoading <;>
    simp [fetchWeatherData, getCurrentWeather, h, showWeatherData, showLoadingState]

/-- Helper: an expired record makes `getLastCity` clear the slot and return
nothing. -/
theorem getLastCity_expired_aux (r : StoredRecord) (now maxAgeHours t : Rat)
    (hts : r.timestamp = some t)
    (hexp : (now - t) / (1000 * 60 * 60) > maxAgeHours) :
    getLastCity (some (.record r)) now maxAgeHours = (none, none) := by
  simp [getLastCity, hts, hexp]

/-- Helper: when the weather fetch for the city `loadInitialWeather` resolves
fails, the bootstrap issues exactly that one fetch and renders the static
error strings — the `catch`-and-retry branch of the TS function never runs
because `fetchWeatherData` resolves even on failure. -/
theorem loadInitialWeather_failure_aux (env : Env) (st : AppState)
    (h : env.wnet (initialResolvedCity st) = none) :
    (loadInitialWeather env st).fetchLog = st.fetchLog ++ [initialResolvedCity st] ∧
      (loadInitialWeather env st).display.cityText = "Fehler beim Laden der Wetterdaten" ∧
      (loadInitialWeather env st).display.weatherTypeText = "Bitte versuchen Sie es erneut" := by
  unfold initialResolvedCity at h ⊢
  rcases hgl : getLastCity st.store st.now 24 with ⟨_ | lastCity, store'⟩
  · rw [hgl] at h
    simp only at h
    simp only [loadInitialWeather, hgl]
    rw [fetchWeatherData_failure_aux _ _ _ _ _ h]
    simp [hgl]
  · rw [hgl] at h
    simp only at h
    simp only [loadInitialWeather, hgl]
    rw [fetchWeatherData_failure_aux _ _ _ _ _ h]
    simp [hgl]

/-- C3: a stored cache record whose saved timestamp is older than
`maxAgeHours` is never returned by `getLastCity`; the call clears the stored
slot, and a subsequent `getLastCity` on the resulting slot again returns
none — expiry is idempotent and self-healing. -/
theorem getLastCity_expired_never_returned_and_cleared (r : StoredRecord)
    (now maxAgeHours t : Rat) (hts : r.timestamp = some t)
    (hexp : (now - t) / (1000 * 60 * 60) > maxAgeHours) :
    getLastCity (some (.record r)) now maxAgeHours = (none, none) ∧
      getLastCity (getLastCity (some (.record r)) now maxAgeHours).2 now maxAgeHours =
        (none, none) := by
  have h1 := getLastCity_expired_aux r now maxAgeHours t hts hexp
  exact ⟨h1, by rw [h1]; simp [getLastCity]⟩

/-- A record saved at epoch-ms 0 is 48 hours old at epoch-ms 172800000. -/
theorem expiredAtTwoDays : ((172800000 : Rat) - 0) / (1000 * 60 * 60) > 24 := by norm_num

/-- C3 witness: the expiry theorem applied to a concrete 48-hour-old record
with the default 24-hour limit. -/
theorem getLastCity_expired_witness :
    getLastCity (some (.record expiredRecord)) 172800000 24 = (none, none) ∧
      getLastCity (getLastCity (some (.record expiredRecord)) 172800000 24).2 172800000 24 =
        (none, none) :=
  getLastCity_expired_never_returned_and_cleared expiredRecord 172800000 24 0 rfl
    expiredAtTwoDays

/-- C4: for every valid candidate (nonzero coordinates, non-empty name) and
display text, `saveLastCity` followed immediately by `getLastCity` returns a
record equal to the candidate plus the text plus a write timestamp that is at
most the current time. -/
theorem saveLastCity_roundtrip (c : Coordinates) (t : String) (now : Rat)
    (store : Option StoredValue)
    (hlat : c.lat ≠ 0) (hlon : c.lon ≠ 0) (hname : c.name ≠ "") :
    ∃ r : StoredRecord,
      (getLastCity (saveLastCity c t now store) now 24).1 = some r ∧
      r.lat = some c.lat ∧ r.lon = some c.lon ∧ r.name = c.name ∧
      r.country = c.country ∧ r.postcodes = c.postcodes ∧ r.searchText = t ∧
      ∃ ts, r.timestamp = some ts ∧ ts ≤ now := by
  refine ⟨{ lat := some c.lat, lon := some c.lon, name := c.name, country := c.country,
            postcodes := c.postcodes, timestamp := some now, searchText := t },
    ?_, rfl, rfl, rfl, rfl, rfl, rfl, ⟨now, rfl, le_refl now⟩⟩
  simp [getLastCity, saveLastCity, numTruthy, hlat, hlon, hname]
  norm_num

/-- C4 witness: the round-trip theorem applied to a concrete valid candidate. -/
theorem saveLastCity_roundtrip_witness :
    ∃ r : StoredRecord,
      (getLastCity (saveLastCity hamburgCity "Hamburg, Deutschland" 1000 none) 1000 24).1 =
        some r ∧
      r.lat = some hamburgCity.lat ∧ r.lon = some hamburgCity.lon ∧
      r.name = hamburgCity.name ∧ r.country = hamburgCity.country ∧
      r.postcodes = hamburgCity.postcodes ∧ r.searchText = "Hamburg, Deutschland" ∧
      ∃ ts, r.timestamp = some ts ∧ ts ≤ 1000 :=
  saveLastCity_roundtrip hamburgCity "Hamburg, Deutschland" 1000 none (by decide) (by decide)
    (by decide)

/-- C9: a candidate whose latitude or longitude is 0 is rejected by the
validation in `getLastCity` (falsy number), so `saveLastCity` followed by
`getLastCity` returns none and clears the stored slot — the cache round-trip
fails for such candidates. -/
theorem zero_coordinate_roundtrip_rejected (c : Coordinates) (t : String) (now : Rat)
    (store : Option StoredValue) (h : c.lat = 0 ∨ c.lon = 0) :
    getLastCity (saveLastCity c t now store) now 24 = (none, none) := by
  rcases h with h | h <;> simp [getLastCity, saveLastCity, numTruthy, h]

/-- C9 witness: the zero-coordinate theorem applied to a candidate on the
equator. -/
theorem zero_coordinate_roundtrip_rejected_witness :
    getLastCity (saveLastCity equatorCity "Nullinsel" 1000 none) 1000 24 = (none, none) :=
  zero_coordinate_roundtrip_rejected equatorCity "Nullinsel" 1000 none (Or.inl rfl)

/-- C10: a stored record whose timestamp is missing or non-numeric is never
treated as expired (the `NaN` age comparison is false), so `getLastCity`
returns it whenever latitude, longitude and name are truthy, regardless of
`maxAgeHours`. -/
theorem missing_timestamp_never_expired (r : StoredRecord) (now maxAgeHours : Rat)
    (hts : r.timestamp = none) (hlat : numTruthy r.lat = true)
    (hlon : numTruthy r.lon = true) (hname : r.name ≠ "") :
    getLastCity (some (.record r)) now maxAgeHours = (some r, some (.record r)) := by
  simp [getLastCity, hts, hlat, hlon, hname]

/-- C10 witness: a timestamp-less record is returned even with a zero age
limit and an arbitrarily late clock. -/
theorem missing_timestamp_never_expired_witness :
    getLastCity (some (.record noTimestampRecord)) 99999999999 0 =
      (some noTimestampRecord, some (.record noTimestampRecord)) :=
  missing_timestamp_never_expired noTimestampRecord 99999999999 0 rfl (by decide) (by decide)
    (by decide)

/-- C5: `getWeatherInfo` is a pure lookup: every weather code absent from the
static `weatherCodeMap` table yields the same entry as code 0, the clear-sky
default (condition text, icon and theme), instead of failing. -/
theorem getWeatherInfo_unknown_code_clear_sky_default (code : Int)
    (h : weatherCodeMap.lookup code = none) :
    getWeatherInfo code = getWeatherInfo 0 ∧
      getWeatherInfo 0 = ⟨"Klarer Himmel", "sunny.png", "sunny"⟩ := by
  refine ⟨?_, by decide⟩
  simp [getWeatherInfo, h]
  decide

/-- C5 witness: the unknown-code theorem applied to code 9999. -/
theorem getWeatherInfo_unknown_code_witness :
    getWeatherInfo 9999 = getWeatherInfo 0 ∧
      getWeatherInfo 0 = ⟨"Klarer Himmel", "sunny.png", "sunny"⟩ :=
  getWeatherInfo_unknown_code_clear_sky_default 9999 (by decide)

/-- C6: for every sequence of key events starting from index `-1` with a
result list of `count` items, the selection index of the autocomplete
keyboard handler always stays in `[-1, count-1]`: repeated ArrowDown presses
never move it past `count - 1` and repeated ArrowUp presses never move it
below `-1`. -/
theorem selection_index_bounded (count : Nat) (keys : List NavKey) :
    -1 ≤ selectionRun count keys ∧ selectionRun count keys ≤ (count : Int) - 1 :=
  selectionFoldl_bounds count keys (-1) (le_refl _) (by omega)

/-- C7: for every query, if the geocoding network request or the response
decoding fails (or the response status is not ok), `searchCities` returns the
empty list; the function is total, so no exception reaches the caller. -/
theorem searchCities_failure_returns_empty (query : String) (net : GeoNet)
    (h : net = .netFail ∨ net = .httpError) : searchCities query net = [] := by
  rcases h with rfl | rfl <;> simp [searchCities]

/-- C7 witness: a failing geocoding fetch for "Berlin" yields no matches. -/
theorem searchCities_failure_returns_empty_witness :
    searchCities "Berlin" GeoNet.netFail = [] :=
  searchCities_failure_returns_empty "Berlin" GeoNet.netFail (Or.inl rfl)

/-- C8: when a user-driven weather request fails, only the city and condition
display slots change (to the static error strings); temperature, feels-like,
humidity, wind, postal text and visibility, icon source and alt text, and the
theme class all keep their previous values, and the storage slot is not
written. -/
theorem fetchWeatherData_failure_frame (c : Coordinates) (saveFlag showFlag : Bool)
    (env : Env) (st : AppState) (h : env.wnet c = none) :
    (fetchWeatherData c saveFlag showFlag env st).display.cityText =
        "Fehler beim Laden der Wetterdaten" ∧
      (fetchWeatherData c saveFlag showFlag env st).display.weatherTypeText =
        "Bitte versuchen Sie es erneut" ∧
      (fetchWeatherData c saveFlag showFlag env st).display.temperatureText =
        st.display.temperatureText ∧
      (fetchWeatherData c saveFlag showFlag env st).display.feelsLikeText =
        st.display.feelsLikeText ∧
      (fetchWeatherData c saveFlag showFlag env st).display.humidityShown =
        st.display.humidityShown ∧
      (fetchWeatherData c saveFlag showFlag env st).display.windShown =
        st.display.windShown ∧
      (fetchWeatherData c saveFlag showFlag env st).display.postalText =
        st.display.postalText ∧
      (fetchWeatherData c saveFlag showFlag env st).display.postalVisible =
        st.display.postalVisible ∧
      (fetchWeatherData c saveFlag showFlag env st).display.imageSrc =
        st.display.imageSrc ∧
      (fetchWeatherData c saveFlag showFlag env st).display.imageAlt =
        st.display.imageAlt ∧
      (fetchWeatherData c saveFlag showFlag env st).display.themeClass =
        st.display.themeClass ∧
      (fetchWeatherData c saveFlag showFlag env st).store = st.store := by
  rw [fetchWeatherData_failure_aux c saveFlag showFlag env st h]
  cases showFlag <;> simp [showLoadingState]

/-- C8 witness: the failure frame theorem applied to a user-driven request
(save and spinner both requested) in a concrete state. -/
theorem fetchWeatherData_failure_frame_witness :
    (fetchWeatherData hamburgCity true true failingEnv bootState).display.cityText =
        "Fehler beim Laden der Wetterdaten" ∧
      (fetchWeatherData hamburgCity true true failingEnv bootState).display.weatherTypeText =
        "Bitte versuchen Sie es erneut" ∧
      (fetchWeatherData hamburgCity true true failingEnv bootState).display.temperatureText =
        bootState.display.temperatureText ∧
      (fetchWeatherData hamburgCity true true failingEnv bootState).display.feelsLikeText =
        bootState.display.feelsLikeText ∧
      (fetchWeatherData hamburgCity true true failingEnv bootState).display.humidityShown =
        bootState.display.humidityShown ∧
      (fetchWeatherData hamburgCity true true failingEnv bootState).display.windShown =
        bootState.display.windShown ∧
      (fetchWeatherData hamburgCity true true failingEnv bootState).display.postalText =
        bootState.display.postalText ∧
      (fetchWeatherData hamburgCity true true failingEnv bootState).display.postalVisible =
        bootState.display.postalVisible ∧
      (fetchWeatherData hamburgCity true true failingEnv bootState).display.imageSrc =
        bootState.display.imageSrc ∧
      (fetchWeatherData hamburgCity true true failingEnv bootState).display.imageAlt =
        bootState.display.imageAlt ∧
      (fetchWeatherData hamburgCity true true failingEnv bootState).display.themeClass =
        bootState.display.themeClass ∧
      (fetchWeatherData hamburgCity true true failingEnv bootState).store = bootState.store :=
  fetchWeatherData_failure_frame hamburgCity true true failingEnv bootState rfl

/-- C2 counterexample: for a weather snapshot with postal codes
`["10115", "10117", "10119"]`, the weather display renders
`"PLZ: 10115, 10117, 10119"` — all three codes in full and no `"+2 more"`
suffix; the claim asserts the rendered text contains `"+2 more"`, which is
false (the `+N more` suffix of this element needs more than three codes, with
`N = count - 3`). -/
theorem postal_three_codes_counterexample :
    (updateWeatherDisplay (sampleWeather ["10115", "10117", "10119"]) bootDisplay).postalText =
        "PLZ: 10115, 10117, 10119" ∧
      strContains
        (updateWeatherDisplay (sampleWeather ["10115", "10117", "10119"]) bootDisplay).postalText
        "+2 more" = false := by
  constructor
  · rfl
  · decide

/-- C2 amended: for a `WeatherData` whose postal-code list is
`["10115", "10117", "10119"]`, the rendered postal-code text contains
`"10115"` (it is exactly `"PLZ: 10115, 10117, 10119"`, with no `"+N more"`
suffix, which this element only adds past three codes); the autocomplete
dropdown entry for a candidate with these codes (the Berlin default) does
contain `"+2 more"`; and for an empty postal-code list the postal-code
element is hidden. -/
theorem postal_code_rendering (d : DisplayState) (w wEmpty : WeatherData)
    (h3 : w.postcodes = ["10115", "10117", "10119"]) (h0 : wEmpty.postcodes = []) :
    (updateWeatherDisplay w d).postalText = "PLZ: 10115, 10117, 10119" ∧
      strContains (updateWeatherDisplay w d).postalText "10115" = true ∧
      strContains (updateWeatherDisplay w d).postalText "+2 more" = false ∧
      (updateWeatherDisplay wEmpty d).postalVisible = false ∧
      strContains (resultItemText getBerlinCoordinates) "+2 more" = true := by
  refine ⟨?_, ?_, ?_, ?_, by decide⟩ <;>
    simp [updateWeatherDisplay, h3, h0, showWeatherData] <;> decide

/-- C2 witness: the amended rendering theorem applied to concrete snapshots
with the three-element and the empty postal-code lists. -/
theorem postal_code_rendering_witness :
    (updateWeatherDisplay (sampleWeather ["10115", "10117", "10119"]) bootDisplay).postalText =
        "PLZ: 10115, 10117, 10119" ∧
      strContains
        (updateWeatherDisplay (sampleWeather ["10115", "10117", "10119"]) bootDisplay).postalText
        "10115" = true ∧
      strContains
        (updateWeatherDisplay (sampleWeather ["10115", "10117", "10119"]) bootDisplay).postalText
        "+2 more" = false ∧
      (updateWeatherDisplay (sampleWeather []) bootDisplay).postalVisible = false ∧
      strContains (resultItemText getBerlinCoordinates) "+2 more" = true :=
  postal_code_rendering bootDisplay (sampleWeather ["10115", "10117", "10119"])
    (sampleWeather []) rfl rfl

/-- C1 amended: during the initial bootstrap load, if fetching weather for the
resolved city (cached city or default) fails, the static error message is
rendered in place of weather data immediately and exactly one fetch is issued
— no fallback retry with the default city occurs, because `fetchWeatherData`
catches its own errors and the bootstrap fallback branch never runs. -/
theorem loadInitialWeather_failure_renders_error_without_retry (env : Env) (st : AppState)
    (h : env.wnet (initialResolvedCity st) = none) :
    (loadInitialWeather env st).fetchLog = st.fetchLog ++ [initialResolvedCity st] ∧
      (loadInitialWeather env st).display.cityText = "Fehler beim Laden der Wetterdaten" ∧
      (loadInitialWeather env st).display.weatherTypeText = "Bitte versuchen Sie es erneut" :=
  loadInitialWeather_failure_aux env st h

/-- C1 witness: the amended bootstrap theorem applied to a concrete state
with a valid cached city and an environment in which every fetch fails. -/
theorem loadInitialWeather_failure_witness :
    (loadInitialWeather failingEnv bootState).fetchLog =
        bootState.fetchLog ++ [initialResolvedCity bootState] ∧
      (loadInitialWeather failingEnv bootState).display.cityText =
        "Fehler beim Laden der Wetterdaten" ∧
      (loadInitialWeather failingEnv bootState).display.weatherTypeText =
        "Bitte versuchen Sie es erneut" :=
  loadInitialWeather_failure_renders_error_without_retry failingEnv bootState rfl

/-- C1 counterexample: with a valid cached Hamburg record and every weather
fetch failing, the bootstrap issues exactly one fetch — for the cached city —
and never fetches the Berlin default, rendering the static error message
right away; this refutes the claim that the bootstrap falls back to the
default city and retries once before rendering the error. -/
theorem loadInitialWeather_no_default_retry_counterexample :
    (loadInitialWeather failingEnv bootState).fetchLog =
        [storedToCoordinates hamburgRecord] ∧
      getBerlinCoordinates ∉ (loadInitialWeather failingEnv bootState).fetchLog ∧
      (loadInitialWeather failingEnv bootState).display.cityText =
        "Fehler beim Laden der Wetterdaten" := by
  have hres : initialResolvedCity bootState = storedToCoordinates hamburgRecord := by
    unfold initialResolvedCity
    norm_num [getLastCity, bootState, hamburgRecord, numTruthy]
    decide
  obtain ⟨hlog, hcity, -⟩ := loadInitialWeather_failure_aux failingEnv bootState rfl
  rw [hres] at hlog
  have hlog' : (loadInitialWeather failingEnv bootState).fetchLog =
      [storedToCoordinates hamburgRecord] := by
    rw [hlog]; simp [bootState]
  have hneq : getBerlinCoordinates ≠ storedToCoordinates hamburgRecord := by
    intro he
    have hn := congrArg Coordinates.name he
    simp [getBerlinCoordinates, storedToCoordinates, hamburgRecord] at hn
  exact ⟨hlog', by rw [hlog']; simp [hneq], hcity⟩
